import Mathlib

/-!
Shallow embedding of the API client exercised by
`src/google/genai/_test_api_client.py`.

The repository ships only the test module; the implementation module
`google.genai.api_client` (class `ApiClient` with `_build_request`,
`_request`, `_async_request`, `request`, `request_streamed`,
`async_request`, `async_request_streamed`) is not under `src/`, so the
client operations below are modelled from the specification, constrained
by what the tests assert about them (argument shapes, call counts,
streaming flags, ordering and timing).
-/

namespace GenaiApiClient

/-- Error kinds of the client (spec section 7): `InvalidRequest` from the
request builder, `TransportError` from a failed non-streaming transport
operation, `StreamInterrupted` when the connection drops mid-stream. -/
inductive ApiError where
  | invalidRequest (msg : String)
  | transportError (msg : String)
  | streamInterrupted (msg : String)
deriving DecidableEq, Repr

/-- The immutable request descriptor produced by the request builder
(spec section 3): method, path, structured key-value body, and headers
taken from the optional per-call configuration. -/
structure HttpRequest where
  method : String
  path : String
  body : List (String × String)
  headers : List (String × String)
deriving DecidableEq, Repr

/-- The client object: long-lived configuration only (spec section 3);
no mutable state is touched by calls. -/
structure ApiClient where
  api_key : String
deriving DecidableEq, Repr

/-- The small enumerated set of HTTP verbs the builder accepts
(spec section 3). -/
def supportedHttpMethods : List String :=
  ["GET", "POST", "PUT", "DELETE", "PATCH"]

/-- Modelled from the spec: `ApiClient._build_request` is absent from the
source (the tests only mock it). Per spec section 4.1 it is a pure
function of (method, path, body, optional config) producing an immutable
request descriptor, with no failure mode beyond input validation: an
unsupported method or a malformed (here: empty) path fails with an
`InvalidRequest` error. -/
def _build_request (_c : ApiClient) (http_method : String) (path : String)
    (request_dict : List (String × String))
    (http_options : Option (List (String × String))) :
    Except ApiError HttpRequest :=
  if http_method ∈ supportedHttpMethods then
    if path = "" then .error (.invalidRequest "malformed path")
    else .ok ⟨http_method, path, request_dict, http_options.getD []⟩
  else .error (.invalidRequest "unsupported http method")

/-- The response-like object returned by the transport boundary
(spec section 6): a direct payload `text` for non-streaming calls, and
for streaming calls the finite list of segments the server sends, in
send order, possibly cut short by a mid-stream failure recorded in
`segFailure`. -/
structure RawResponse where
  text : String
  segs : List String
  segFailure : Option ApiError
deriving DecidableEq, Repr

/-- Modelled from the spec: the transport boundary (spec sections 6, 9) is
an external collaborator reached through an injectable interface, exactly
as the tests substitute a fake for `_request` / `_async_request`.
`respond` maps a request descriptor and the streaming flag to the
transport outcome; `latency` is the wall-clock delay (ms) before a
transport operation completes, `segDelay` the per-segment delivery delay
(ms), both used by the timing model of spec sections 5 and 8. -/
structure Transport where
  respond : HttpRequest → Bool → Except ApiError RawResponse
  latency : Nat
  segDelay : Nat

/-- One recorded invocation of the request builder, with the arguments it
was given (what `mock_build_request.assert_called_with` inspects). -/
structure BuildCall where
  http_method : String
  path : String
  request_dict : List (String × String)
  http_options : Option (List (String × String))
deriving DecidableEq, Repr

/-- The observable call trace of one client operation: the builder
invocations and the transport invocations (request descriptor paired with
the streaming flag), in order. -/
structure Trace where
  buildCalls : List BuildCall
  transportCalls : List (HttpRequest × Bool)
deriving DecidableEq, Repr

/-- One scheduling-relevant step of a call on the asynchronous path
(spec section 5): a `suspend` step awaits I/O and yields control to the
single-threaded cooperative scheduler for its duration; a `block` step
occupies the scheduler thread, so no other task can run meanwhile. -/
inductive Step where
  | suspend (d : Nat)
  | block (d : Nat)
deriving DecidableEq, Repr

/-- Duration of a step in milliseconds. -/
def Step.dur : Step → Nat
  | .suspend d => d
  | .block d => d

/-- Whether a step yields control to the scheduler while waiting. -/
def Step.isSuspend : Step → Bool
  | .suspend _ => true
  | .block _ => false

/-- What iterating a streamed call's lazy sequence produces, in order:
yielded segments, and at most one terminal failure raised at the point
the next segment was requested. -/
inductive StreamEvent where
  | segment (s : String)
  | failure (e : ApiError)
deriving DecidableEq, Repr

/-- The segments actually delivered to the caller by a streamed call,
in delivery order (failure events produce nothing). -/
def deliveredOf (events : List StreamEvent) : List String :=
  events.filterMap fun ev =>
    match ev with
    | .segment s => some s
    | .failure _ => none

/-- Modelled from the spec: consuming the `segments()` lazy sequence of a
streamed response — the one segment-producing construct that the source
shares between the synchronous and the asynchronous streaming path (spec
section 9 and the comment at `MockResponse.segments` in the tests). Each
transport segment is yielded in server-send order; a mid-stream failure
is raised only after the already-emitted prefix, at the point the next
segment is requested (spec section 7). -/
def consumeSegments (r : RawResponse) : List StreamEvent :=
  r.segs.map StreamEvent.segment ++
    (match r.segFailure with
     | none => []
     | some e => [StreamEvent.failure e])

/-- Modelled from the spec: `ApiClient.request` (spec section 4.2): build
the request, invoke the transport once with the streaming flag false,
block until the payload is available; a builder or transport error is
raised to the blocking caller, with no retry (spec section 7). Returns
the outcome together with the observable call trace. -/
def request (c : ApiClient) (t : Transport) (http_method path : String)
    (request_dict : List (String × String))
    (http_options : Option (List (String × String)) := none) :
    Except ApiError String × Trace :=
  match _build_request c http_method path request_dict http_options with
  | .error e =>
      (.error e, ⟨[⟨http_method, path, request_dict, http_options⟩], []⟩)
  | .ok req =>
      (match t.respond req false with
       | .error e => .error e
       | .ok r => .ok r.text,
       ⟨[⟨http_method, path, request_dict, http_options⟩], [(req, false)]⟩)

/-- Modelled from the spec: `ApiClient.request_streamed` (spec
section 4.2): build the request, invoke the transport once with the
streaming flag true, and lazily yield each segment as the transport
delivers it; errors surface at the point the next element is requested,
with no retry (spec section 7). Returns the ordered consumption events
together with the observable call trace. -/
def request_streamed (c : ApiClient) (t : Transport)
    (http_method path : String) (request_dict : List (String × String))
    (http_options : Option (List (String × String)) := none) :
    List StreamEvent × Trace :=
  match _build_request c http_method path request_dict http_options with
  | .error e =>
      ([.failure e], ⟨[⟨http_method, path, request_dict, http_options⟩], []⟩)
  | .ok req =>
      (match t.respond req true with
       | .error e => [.failure e]
       | .ok r => consumeSegments r,
       ⟨[⟨http_method, path, request_dict, http_options⟩], [(req, true)]⟩)

/-- The outcome of one asynchronous client call: the value the caller
resumes with, the observable call trace, and the scheduling steps the
call takes on the cooperative scheduler. -/
structure AsyncCall (α : Type) where
  value : α
  trace : Trace
  steps : List Step
deriving DecidableEq, Repr

/-- Modelled from the spec: `ApiClient.async_request` (spec section 4.3):
build the request, then suspend while awaiting the transport's
asynchronous completion (one `suspend` step of the transport latency),
resuming with the payload; a transport error is raised at the await
point, with no retry (spec section 7). -/
def async_request (c : ApiClient) (t : Transport) (http_method path : String)
    (request_dict : List (String × String))
    (http_options : Option (List (String × String)) := none) :
    AsyncCall (Except ApiError String) :=
  match _build_request c http_method path request_dict http_options with
  | .error e =>
      ⟨.error e, ⟨[⟨http_method, path, request_dict, http_options⟩], []⟩, []⟩
  | .ok req =>
      ⟨match t.respond req false with
       | .error e => .error e
       | .ok r => .ok r.text,
       ⟨[⟨http_method, path, request_dict, http_options⟩], [(req, false)]⟩,
       [.suspend t.latency]⟩

/-- Modelled from the spec: the scheduling steps taken to obtain the
segments on the asynchronous streaming path. Because the source shares
one synchronous segment-producing construct between both streaming paths
(spec section 9; the source comment at `MockResponse.segments` reads
"source code combines sync and async streaming in one segment method"),
each next-segment step occupies the scheduler thread for the per-segment
delay (a `block` step) instead of suspending. -/
def segmentSteps (t : Transport) (r : RawResponse) : List Step :=
  r.segs.map fun _ => Step.block t.segDelay

/-- Modelled from the spec: `ApiClient.async_request_streamed` (spec
section 4.3): build the request, await the transport with the streaming
flag true (one `suspend` step of the transport latency), then produce the
segments through the shared synchronous segments construct
(`segmentSteps`); errors surface at the point the next element is
requested, with no retry (spec section 7). -/
def async_request_streamed (c : ApiClient) (t : Transport)
    (http_method path : String) (request_dict : List (String × String))
    (http_options : Option (List (String × String)) := none) :
    AsyncCall (List StreamEvent) :=
  match _build_request c http_method path request_dict http_options with
  | .error e =>
      ⟨[.failure e], ⟨[⟨http_method, path, request_dict, http_options⟩], []⟩, []⟩
  | .ok req =>
      match t.respond req true with
      | .error e =>
          ⟨[.failure e],
           ⟨[⟨http_method, path, request_dict, http_options⟩], [(req, true)]⟩,
           [.suspend t.latency]⟩
      | .ok r =>
          ⟨consumeSegments r,
           ⟨[⟨http_method, path, request_dict, http_options⟩], [(req, true)]⟩,
           .suspend t.latency :: segmentSteps t r⟩

/-- N independent invocations of `async_request` with the same
(method, path, body) arguments and the configuration omitted, each
against its own transport operation, issued concurrently and gathered:
the list of values each call resumes with, and the concatenated
observable trace (what the test's `asyncio.gather` plus the mock's call
records observe). -/
def async_request_gather (c : ApiClient) (ts : List Transport)
    (http_method path : String) (request_dict : List (String × String)) :
    List (Except ApiError String) × Trace :=
  (ts.map fun t => (async_request c t http_method path request_dict).value,
   ⟨(ts.map fun t =>
       (async_request c t http_method path request_dict).trace.buildCalls).flatten,
    (ts.map fun t =>
       (async_request c t http_method path request_dict).trace.transportCalls).flatten⟩)

/-- Total wall-clock time of one call's steps when run alone. -/
def soloTime (steps : List Step) : Nat :=
  (steps.map Step.dur).sum

/-- Modelled from the spec: elapsed wall-clock time of concurrently
issued tasks under the single-threaded cooperative scheduler of spec
section 5, for tasks every step of which suspends: each task awaits its
own I/O independently and resumes when that I/O completes, the waits
overlap in wall time with no serialization imposed by the client, so the
total elapsed time is the maximum of the individual completion times.
(A task with a `block` step would instead occupy the thread and
serialize; this closed form is applied only to all-suspend tasks.) -/
def gatherElapsed (tasks : List (List Step)) : Nat :=
  (tasks.map soloTime).foldr max 0

/-- Two invocations of the request builder with identical arguments, one
after the other (spec section 8, idempotence). -/
def build_request_twice (c : ApiClient) (http_method path : String)
    (request_dict : List (String × String))
    (http_options : Option (List (String × String))) :
    Except ApiError HttpRequest × Except ApiError HttpRequest :=
  (_build_request c http_method path request_dict http_options,
   _build_request c http_method path request_dict http_options)

/-! Concrete fixtures mirroring the tests: the client with api key
`test_api_key`, the documented arguments `GET test/path {key: value}`,
and fake transports. -/

/-- The client under test: `ApiClient(api_key='test_api_key')`. -/
def testClient : ApiClient := ⟨"test_api_key"⟩

/-- The request body used throughout the tests. -/
def testBody : List (String × String) := [("key", "value")]

/-- The descriptor `_build_request` produces for the documented
arguments with the configuration omitted. -/
def testHttpRequest : HttpRequest := ⟨"GET", "test/path", testBody, []⟩

/-- A fake transport with 100 ms latency answering `value` to
non-streaming calls (the second test's `delayed_response`). -/
def testTransport : Transport :=
  { respond := fun _ _ => .ok ⟨"value", [], none⟩
    latency := 100
    segDelay := 100 }

/-- A fake streaming transport delivering three segments with a 100 ms
per-segment delay and no latency before the response object (the third
test's `delayed_response` / `MockResponse`). -/
def testStreamTransport : Transport :=
  { respond := fun _ _ => .ok ⟨"", ["chunk1", "chunk2", "chunk3"], none⟩
    latency := 0
    segDelay := 100 }

/-- A second fake transport whose own operation produces a different
payload, to tell concurrent calls apart. -/
def otherTransport : Transport :=
  { respond := fun _ _ => .ok ⟨"other", [], none⟩
    latency := 100
    segDelay := 100 }

/-- A fake transport that fails every operation: non-streaming calls
with a `TransportError`, streaming calls with a `StreamInterrupted`. -/
def failTransport : Transport :=
  { respond := fun _ streaming =>
      .error (if streaming then .streamInterrupted "connection dropped"
              else .transportError "connection refused")
    latency := 100
    segDelay := 100 }

/-- A fake streaming transport that delivers two segments and then
drops the connection mid-stream. -/
def midFailTransport : Transport :=
  { respond := fun _ _ =>
      .ok ⟨"", ["chunk1", "chunk2"], some (.streamInterrupted "mid-stream drop")⟩
    latency := 0
    segDelay := 100 }

/-- A fake streaming transport whose stream holds zero segments. -/
def emptyStreamTransport : Transport :=
  { respond := fun _ _ => .ok ⟨"", [], none⟩
    latency := 0
    segDelay := 100 }

/-! Helper lemmas shared by the claim theorems. -/

/-- Delivering a list of segments as events and reading the delivered
segments back is the identity. -/
theorem deliveredOf_map_segment (segs : List String) :
    deliveredOf (segs.map StreamEvent.segment) = segs := by
  induction segs with
  | nil => rfl
  | cons s rest ih => simpa [deliveredOf] using ih

/-- Appending a terminal failure event adds nothing to the delivered
segments. -/
theorem deliveredOf_append_failure (segs : List String) (e : ApiError) :
    deliveredOf (segs.map StreamEvent.segment ++ [StreamEvent.failure e]) =
      segs := by
  induction segs with
  | nil => rfl
  | cons s rest ih => simpa [deliveredOf] using ih

/-- Flattening a constant one-element-list map is replication. -/
theorem flatten_map_singleton {α β : Type} (xs : List α) (y : β) :
    (xs.map fun _ => [y]).flatten = List.replicate xs.length y := by
  induction xs with
  | nil => rfl
  | cons x rest ih => simp [List.replicate_succ, ih]

/-- The maximum over at least one copy of `L` is `L`. -/
theorem foldr_max_replicate (L : Nat) :
    ∀ N, 1 ≤ N → (List.replicate N L).foldr max 0 = L := by
  intro N hN
  induction N with
  | zero => omega
  | succ n ih =>
    rw [List.replicate_succ, List.foldr_cons]
    rcases Nat.eq_zero_or_pos n with h0 | hp
    · subst h0; simp
    · rw [ih hp, Nat.max_self]

/-- Matching a transport outcome to a payload is `Except.map` of the
text projection. -/
theorem payload_match_eq_map (x : Except ApiError RawResponse) :
    (match x with
     | .error e => (.error e : Except ApiError String)
     | .ok r => .ok r.text) = x.map RawResponse.text := by
  cases x <;> rfl

/-! Claim theorems. -/

/-- C7: calling the request builder twice with identical arguments
(method, path, body, config) produces two request descriptors that are
value-equal: the builder is a pure function of its arguments, with no
dependence on any state of the client beyond those arguments. -/
theorem build_request_idempotent (c : ApiClient) (http_method path : String)
    (request_dict : List (String × String))
    (http_options : Option (List (String × String))) :
    (build_request_twice c http_method path request_dict http_options).1 =
      (build_request_twice c http_method path request_dict http_options).2 :=
  rfl

/-- C10: when the optional per-call configuration argument is omitted,
`request_streamed`, `async_request` and `async_request_streamed` each
invoke the request builder with `none` as its fourth (configuration)
argument. -/
theorem omitted_config_builds_with_none (c : ApiClient) (t : Transport)
    (http_method path : String) (request_dict : List (String × String)) :
    (request_streamed c t http_method path request_dict).2.buildCalls =
      [⟨http_method, path, request_dict, none⟩] ∧
    (async_request c t http_method path request_dict).trace.buildCalls =
      [⟨http_method, path, request_dict, none⟩] ∧
    (async_request_streamed c t http_method path request_dict).trace.buildCalls =
      [⟨http_method, path, request_dict, none⟩] := by
  refine ⟨?_, ?_, ?_⟩ <;>
    · simp only [request_streamed, async_request, async_request_streamed]
      rcases h : _build_request c http_method path request_dict none with e | req <;>
        simp [h] <;>
        rcases ht : t.respond req true with e2 | r <;>
        rcases hf : t.respond req false with e3 | r2 <;>
        simp [ht, hf]

/-- C2: for a synchronous streamed call whose transport succeeds and
whose stream is not interrupted, the sequence of segments yielded to the
caller equals, element for element and in the same order, the sequence of
segments the transport's response produces. -/
theorem request_streamed_preserves_order (c : ApiClient) (t : Transport)
    (http_method path : String) (request_dict : List (String × String))
    (http_options : Option (List (String × String)))
    (req : HttpRequest) (r : RawResponse)
    (hb : _build_request c http_method path request_dict http_options = .ok req)
    (ht : t.respond req true = .ok r)
    (hok : r.segFailure = none) :
    (request_streamed c t http_method path request_dict http_options).1 =
      r.segs.map StreamEvent.segment ∧
    deliveredOf
        (request_streamed c t http_method path request_dict http_options).1 =
      r.segs := by
  have hev :
      (request_streamed c t http_method path request_dict http_options).1 =
        r.segs.map StreamEvent.segment := by
    simp [request_streamed, hb, ht, consumeSegments, hok]
  exact ⟨hev, by rw [hev, deliveredOf_map_segment]⟩

/-- C2 witness: the three-segment stream of the first test is yielded
exactly in server-send order. -/
theorem request_streamed_preserves_order_witness :
    (request_streamed testClient testStreamTransport "GET" "test/path"
        testBody none).1 =
      ["chunk1", "chunk2", "chunk3"].map StreamEvent.segment ∧
    deliveredOf (request_streamed testClient testStreamTransport "GET"
        "test/path" testBody none).1 =
      ["chunk1", "chunk2", "chunk3"] :=
  request_streamed_preserves_order testClient testStreamTransport "GET"
    "test/path" testBody none testHttpRequest
    ⟨"", ["chunk1", "chunk2", "chunk3"], none⟩ rfl rfl rfl

/-- C8: a streamed call (synchronous or asynchronous) whose transport
response holds zero segments yields the empty sequence and raises no
error. -/
theorem streamed_empty_stream_yields_empty (c : ApiClient) (t : Transport)
    (http_method path : String) (request_dict : List (String × String))
    (http_options : Option (List (String × String)))
    (req : HttpRequest) (r : RawResponse)
    (hb : _build_request c http_method path request_dict http_options = .ok req)
    (ht : t.respond req true = .ok r)
    (hsegs : r.segs = [])
    (hok : r.segFailure = none) :
    (request_streamed c t http_method path request_dict http_options).1 = [] ∧
    (async_request_streamed c t http_method path request_dict
        http_options).value = [] := by
  constructor <;>
    simp [request_streamed, async_request_streamed, hb, ht, consumeSegments,
      hsegs, hok]

/-- C8 witness: both streamed operations against the zero-segment
transport yield the empty sequence. -/
theorem streamed_empty_stream_yields_empty_witness :
    (request_streamed testClient emptyStreamTransport "GET" "test/path"
        testBody none).1 = [] ∧
    (async_request_streamed testClient emptyStreamTransport "GET" "test/path"
        testBody none).value = [] :=
  streamed_empty_stream_yields_empty testClient emptyStreamTransport "GET"
    "test/path" testBody none testHttpRequest ⟨"", [], none⟩ rfl rfl rfl rfl

/-- C9: when a streamed call fails mid-stream, the events produced are
exactly the pre-failure segments in order followed by the single failure:
every segment already delivered remains in place (the delivered sequence
equals the full pre-failure segment list, nothing is retracted), and the
failure surfaces only after that prefix, at the point the next segment
is requested. -/
theorem streamed_failure_preserves_prefix (c : ApiClient) (t : Transport)
    (http_method path : String) (request_dict : List (String × String))
    (http_options : Option (List (String × String)))
    (req : HttpRequest) (r : RawResponse) (e : ApiError)
    (hb : _build_request c http_method path request_dict http_options = .ok req)
    (ht : t.respond req true = .ok r)
    (hf : r.segFailure = some e) :
    (request_streamed c t http_method path request_dict http_options).1 =
      r.segs.map StreamEvent.segment ++ [StreamEvent.failure e] ∧
    deliveredOf
        (request_streamed c t http_method path request_dict http_options).1 =
      r.segs ∧
    (async_request_streamed c t http_method path request_dict
        http_options).value =
      r.segs.map StreamEvent.segment ++ [StreamEvent.failure e] ∧
    deliveredOf (async_request_streamed c t http_method path request_dict
        http_options).value =
      r.segs := by
  have hev :
      (request_streamed c t http_method path request_dict http_options).1 =
        r.segs.map StreamEvent.segment ++ [StreamEvent.failure e] := by
    simp [request_streamed, hb, ht, consumeSegments, hf]
  have hev2 :
      (async_request_streamed c t http_method path request_dict
          http_options).value =
        r.segs.map StreamEvent.segment ++ [StreamEvent.failure e] := by
    simp [async_request_streamed, hb, ht, consumeSegments, hf]
  exact ⟨hev, by rw [hev, deliveredOf_append_failure], hev2,
    by rw [hev2, deliveredOf_append_failure]⟩

/-- C9 witness: the two segments delivered before the mid-stream drop
remain in place and the interruption surfaces after them. -/
theorem streamed_failure_preserves_prefix_witness :
    (request_streamed testClient midFailTransport "GET" "test/path"
        testBody none).1 =
      ["chunk1", "chunk2"].map StreamEvent.segment ++
        [StreamEvent.failure (.streamInterrupted "mid-stream drop")] ∧
    deliveredOf (request_streamed testClient midFailTransport "GET"
        "test/path" testBody none).1 =
      ["chunk1", "chunk2"] ∧
    (async_request_streamed testClient midFailTransport "GET" "test/path"
        testBody none).value =
      ["chunk1", "chunk2"].map StreamEvent.segment ++
        [StreamEvent.failure (.streamInterrupted "mid-stream drop")] ∧
    deliveredOf (async_request_streamed testClient midFailTransport "GET"
        "test/path" testBody none).value =
      ["chunk1", "chunk2"] :=
  streamed_failure_preserves_prefix testClient midFailTransport "GET"
    "test/path" testBody none testHttpRequest
    ⟨"", ["chunk1", "chunk2"], some (.streamInterrupted "mid-stream drop")⟩
    (.streamInterrupted "mid-stream drop") rfl rfl rfl

/-- C3: every streamed call passes the transport's streaming flag as true
and invokes the request builder exactly once; every non-streaming call
passes the streaming flag as false (and also builds exactly once). -/
theorem streaming_flag_and_single_build (c : ApiClient) (t : Transport)
    (http_method path : String) (request_dict : List (String × String))
    (http_options : Option (List (String × String))) (req : HttpRequest)
    (hb : _build_request c http_method path request_dict http_options = .ok req) :
    (request_streamed c t http_method path request_dict
        http_options).2.transportCalls = [(req, true)] ∧
    (request_streamed c t http_method path request_dict
        http_options).2.buildCalls =
      [⟨http_method, path, request_dict, http_options⟩] ∧
    (async_request_streamed c t http_method path request_dict
        http_options).trace.transportCalls = [(req, true)] ∧
    (async_request_streamed c t http_method path request_dict
        http_options).trace.buildCalls =
      [⟨http_method, path, request_dict, http_options⟩] ∧
    (request c t http_method path request_dict
        http_options).2.transportCalls = [(req, false)] ∧
    (async_request c t http_method path request_dict
        http_options).trace.transportCalls = [(req, false)] := by
  refine ⟨?_, ?_, ?_, ?_, ?_, ?_⟩ <;>
    rcases ht : t.respond req true with e1 | r1 <;>
    rcases hf : t.respond req false with e2 | r2 <;>
    simp [request_streamed, async_request_streamed, request, async_request,
      hb, ht, hf]

/-- C3 witness: at the documented arguments and the three-segment
transport, the streamed calls pass the flag true and build once, the
non-streaming calls pass the flag false. -/
theorem streaming_flag_and_single_build_witness :
    (request_streamed testClient testStreamTransport "GET" "test/path"
        testBody none).2.transportCalls = [(testHttpRequest, true)] ∧
    (request_streamed testClient testStreamTransport "GET" "test/path"
        testBody none).2.buildCalls =
      [⟨"GET", "test/path", testBody, none⟩] ∧
    (async_request_streamed testClient testStreamTransport "GET" "test/path"
        testBody none).trace.transportCalls = [(testHttpRequest, true)] ∧
    (async_request_streamed testClient testStreamTransport "GET" "test/path"
        testBody none).trace.buildCalls =
      [⟨"GET", "test/path", testBody, none⟩] ∧
    (request testClient testStreamTransport "GET" "test/path"
        testBody none).2.transportCalls = [(testHttpRequest, false)] ∧
    (async_request testClient testStreamTransport "GET" "test/path"
        testBody none).trace.transportCalls = [(testHttpRequest, false)] :=
  streaming_flag_and_single_build testClient testStreamTransport "GET"
    "test/path" testBody none testHttpRequest rfl

/-- C6: each of the four client operations invokes the underlying
transport exactly once per call, whatever the transport's outcome (no
internal retry), and a transport error is surfaced to the caller at the
call site: as the returned error on the non-streaming paths, and as the
failure raised on the first segment request on the streaming paths. -/
theorem transport_called_once_and_errors_surface (c : ApiClient)
    (t : Transport) (http_method path : String)
    (request_dict : List (String × String))
    (http_options : Option (List (String × String))) (req : HttpRequest)
    (hb : _build_request c http_method path request_dict http_options = .ok req) :
    (request c t http_method path request_dict
        http_options).2.transportCalls.length = 1 ∧
    (request_streamed c t http_method path request_dict
        http_options).2.transportCalls.length = 1 ∧
    (async_request c t http_method path request_dict
        http_options).trace.transportCalls.length = 1 ∧
    (async_request_streamed c t http_method path request_dict
        http_options).trace.transportCalls.length = 1 ∧
    (∀ e, t.respond req false = .error e →
      (request c t http_method path request_dict http_options).1 = .error e ∧
      (async_request c t http_method path request_dict
          http_options).value = .error e) ∧
    (∀ e, t.respond req true = .error e →
      (request_streamed c t http_method path request_dict
          http_options).1 = [.failure e] ∧
      (async_request_streamed c t http_method path request_dict
          http_options).value = [.failure e]) := by
  refine ⟨?_, ?_, ?_, ?_, ?_, ?_⟩
  · rcases hf : t.respond req false with e2 | r2 <;> simp [request, hb, hf]
  · rcases ht : t.respond req true with e1 | r1 <;>
      simp [request_streamed, hb, ht]
  · rcases hf : t.respond req false with e2 | r2 <;>
      simp [async_request, hb, hf]
  · rcases ht : t.respond req true with e1 | r1 <;>
      simp [async_request_streamed, hb, ht]
  · intro e he
    exact ⟨by simp [request, hb, he], by simp [async_request, hb, he]⟩
  · intro e he
    exact ⟨by simp [request_streamed, hb, he],
      by simp [async_request_streamed, hb, he]⟩

/-- C6 witness: against the transport that refuses every operation, each
operation still calls the transport exactly once and the caller receives
that transport's error. -/
theorem transport_called_once_and_errors_surface_witness :
    (request testClient failTransport "GET" "test/path" testBody
        none).2.transportCalls.length = 1 ∧
    (request_streamed testClient failTransport "GET" "test/path" testBody
        none).2.transportCalls.length = 1 ∧
    (async_request testClient failTransport "GET" "test/path" testBody
        none).trace.transportCalls.length = 1 ∧
    (async_request_streamed testClient failTransport "GET" "test/path"
        testBody none).trace.transportCalls.length = 1 ∧
    (∀ e, failTransport.respond testHttpRequest false = .error e →
      (request testClient failTransport "GET" "test/path" testBody
          none).1 = .error e ∧
      (async_request testClient failTransport "GET" "test/path" testBody
          none).value = .error e) ∧
    (∀ e, failTransport.respond testHttpRequest true = .error e →
      (request_streamed testClient failTransport "GET" "test/path" testBody
          none).1 = [.failure e] ∧
      (async_request_streamed testClient failTransport "GET" "test/path"
          testBody none).value = [.failure e]) :=
  transport_called_once_and_errors_surface testClient failTransport "GET"
    "test/path" testBody none testHttpRequest rfl

/-- C4: gathering N independent `async_request` invocations with the same
(method, path, body) arguments invokes the request builder exactly N
times, each time with exactly those documented arguments (and `none` for
the omitted configuration), and each call resumes with the payload its
own transport operation produced, one result per call. -/
theorem async_request_fanout (c : ApiClient) (ts : List Transport)
    (http_method path : String) (request_dict : List (String × String))
    (req : HttpRequest)
    (hb : _build_request c http_method path request_dict none = .ok req) :
    (async_request_gather c ts http_method path request_dict).2.buildCalls =
      List.replicate ts.length ⟨http_method, path, request_dict, none⟩ ∧
    (async_request_gather c ts http_method path
        request_dict).2.buildCalls.length = ts.length ∧
    (async_request_gather c ts http_method path request_dict).1 =
      ts.map fun t => (t.respond req false).map RawResponse.text := by
  have hbc :
      (async_request_gather c ts http_method path request_dict).2.buildCalls =
        List.replicate ts.length ⟨http_method, path, request_dict, none⟩ := by
    simp only [async_request_gather, async_request, hb]
    exact flatten_map_singleton ts _
  refine ⟨hbc, by rw [hbc, List.length_replicate], ?_⟩
  simp only [async_request_gather, async_request, hb]
  exact List.map_congr_left fun t _ => payload_match_eq_map (t.respond req false)

/-- C4 witness: two concurrent calls against transports with different
payloads yield two results, each the payload of its own transport, and
two recorded builder invocations with the documented arguments. -/
theorem async_request_fanout_witness :
    (async_request_gather testClient [testTransport, otherTransport] "GET"
        "test/path" testBody).2.buildCalls =
      List.replicate 2 ⟨"GET", "test/path", testBody, none⟩ ∧
    (async_request_gather testClient [testTransport, otherTransport] "GET"
        "test/path" testBody).2.buildCalls.length = 2 ∧
    (async_request_gather testClient [testTransport, otherTransport] "GET"
        "test/path" testBody).1 =
      [testTransport, otherTransport].map fun t =>
        (t.respond testHttpRequest false).map RawResponse.text :=
  async_request_fanout testClient [testTransport, otherTransport] "GET"
    "test/path" testBody testHttpRequest rfl

/-- C1: N concurrently issued `async_request` calls are independent
suspensions: every scheduling step of such a call suspends (the client
imposes no serialization), and under the cooperative scheduler the
elapsed wall-clock time of gathering N ≥ 1 such calls against a transport
with fixed latency L is exactly L — hence within [L, L + eps) for every
positive eps, regardless of N. -/
theorem async_request_concurrent_elapsed (c : ApiClient) (t : Transport)
    (http_method path : String) (request_dict : List (String × String))
    (req : HttpRequest) (N eps : Nat)
    (hb : _build_request c http_method path request_dict none = .ok req)
    (hN : 1 ≤ N) (heps : 0 < eps) :
    (∀ s ∈ (async_request c t http_method path request_dict).steps,
      s.isSuspend = true) ∧
    gatherElapsed
        (List.replicate N (async_request c t http_method path
          request_dict).steps) = t.latency ∧
    t.latency ≤
      gatherElapsed (List.replicate N (async_request c t http_method path
        request_dict).steps) ∧
    gatherElapsed
        (List.replicate N (async_request c t http_method path
          request_dict).steps) < t.latency + eps := by
  have hsteps : (async_request c t http_method path request_dict).steps =
      [.suspend t.latency] := by
    simp [async_request, hb]
  have hel : gatherElapsed
      (List.replicate N (async_request c t http_method path
        request_dict).steps) = t.latency := by
    rw [hsteps]
    unfold gatherElapsed
    rw [List.map_replicate]
    have hsolo : soloTime [Step.suspend t.latency] = t.latency := by
      simp [soloTime, Step.dur]
    rw [hsolo, foldr_max_replicate t.latency N hN]
  refine ⟨?_, hel, le_of_eq hel.symm, by omega⟩
  intro s hs
  rw [hsteps] at hs
  simp only [List.mem_singleton] at hs
  subst hs
  rfl

/-- C1 witness: the spec's own instance N = 3, L = 100 ms, eps = 50 ms —
three gathered calls all suspend and finish in exactly 100 ms, inside
[100 ms, 150 ms). -/
theorem async_request_concurrent_elapsed_witness :
    (∀ s ∈ (async_request testClient testTransport "GET" "test/path"
        testBody).steps, s.isSuspend = true) ∧
    gatherElapsed (List.replicate 3 (async_request testClient testTransport
        "GET" "test/path" testBody).steps) = 100 ∧
    100 ≤ gatherElapsed (List.replicate 3 (async_request testClient
        testTransport "GET" "test/path" testBody).steps) ∧
    gatherElapsed (List.replicate 3 (async_request testClient testTransport
        "GET" "test/path" testBody).steps) < 100 + 50 :=
  async_request_concurrent_elapsed testClient testTransport "GET" "test/path"
    testBody testHttpRequest 3 50 rfl (by decide) (by decide)

/-- C5: at the failing input — an asynchronous streamed call whose
transport delivers three segments with a 100 ms per-segment delay, as in
the third test — every step that obtains a segment is a `block` step:
the shared synchronous segments construct occupies the scheduler thread
while waiting for each segment instead of suspending, so the calling
task does not yield control to other tasks, contrary to the claim. -/
theorem async_streamed_segment_steps_do_block :
    (async_request_streamed testClient testStreamTransport "GET" "test/path"
        testBody).steps =
      Step.suspend 0 :: List.replicate 3 (Step.block 100) ∧
    ∀ s ∈ (async_request_streamed testClient testStreamTransport "GET"
        "test/path" testBody).steps.drop 1, s.isSuspend = false := by
  decide

end GenaiApiClient
